import Mathlib

/-!
# Verification of the CodeVault compilation-job orchestrator

Shallow embedding of `src-tauri/src/commands/compiler.rs` (build-plan
synthesis, license-wrapper injection with backup/restore, the Nuitka job
pipeline with its progress events, and the embedded validation protocol
generated into produced executables), together with theorems settling the
specification claims about that code.

Conventions of the embedding:
* Rust strings are Lean `String`s; `u32` progress values are `Nat`;
  Unix timestamps are `Int`.
* The primitive string operations used by the Rust code (`contains`,
  `lines`, `trim`, `replace`, `split_once`, ...) are re-implemented by
  structural recursion on `List Char` so that every definition reduces
  inside the kernel (`decide`/`rfl`).
* File-system reads/writes are modelled by explicit state passing; the
  success of each individual I/O operation is an explicit `Bool` oracle,
  so a theorem quantified over the oracle covers every I/O interleaving.
* Fallible Rust functions returning `Result<T, String>` become functions
  returning the new file-system state together with `Except String T`.
* The long Python/JavaScript source text generated by the instrumenter is
  abbreviated to its banner lines; its runtime behaviour (the embedded
  validation protocol) is modelled separately and faithfully below.
-/

namespace CodeVault

/-! ## Primitive string operations (structural-recursion models of the
Rust `str` methods used by compiler.rs) -/

/-- `List` core of Rust `str::contains`: does `pat` occur as a contiguous
sublist of `s`? -/
def containsList (pat : List Char) : List Char → Bool
  | [] => pat.isEmpty
  | c :: cs => pat.isPrefixOf (c :: cs) || containsList pat cs

/-- Rust `str::contains` for a literal needle. -/
def containsSub (s pat : String) : Bool :=
  containsList pat.data s.data

/-- Split a character list at every occurrence of the separator
character; always returns at least one (possibly empty) piece. -/
def splitCharList (sep : Char) : List Char → List (List Char)
  | [] => [[]]
  | c :: cs =>
    let r := splitCharList sep cs
    if c == sep then [] :: r
    else
      match r with
      | [] => [[c]]
      | h :: t => (c :: h) :: t

/-- Rust `str::lines`: split on `'\n'`, drop the single trailing empty
line produced by a terminating newline, strip one trailing `'\r'` per
line. -/
def rustLines (s : String) : List String :=
  let parts := splitCharList '\n' s.data
  let parts := if parts.getLast? = some [] then parts.dropLast else parts
  parts.map (fun l => String.mk (if l.getLast? = some '\r' then l.dropLast else l))

/-- Rust `char::is_whitespace` restricted to the ASCII whitespace that
occurs in the inputs of this code base. -/
def isWs (c : Char) : Bool :=
  c == ' ' || c == '\t' || c == '\n' || c == '\r'

/-- Rust `str::trim`. -/
def rustTrim (s : String) : String :=
  String.mk (((s.data.dropWhile isWs).reverse.dropWhile isWs).reverse)

/-- Rust `str::trim_matches(c)`: strip every leading and trailing
occurrence of the character `c`. -/
def trimMatches (c : Char) (s : String) : String :=
  String.mk (((s.data.dropWhile (· == c)).reverse.dropWhile (· == c)).reverse)

/-- Rust `str::starts_with` for a literal prefix. -/
def rustStartsWith (s pat : String) : Bool :=
  pat.data.isPrefixOf s.data

/-- Rust `str::ends_with` for a literal suffix. -/
def rustEndsWith (s pat : String) : Bool :=
  pat.data.reverse.isPrefixOf s.data.reverse

/-- Rust `str::is_empty`. -/
def rustIsEmpty (s : String) : Bool :=
  s.data.isEmpty

/-- Rust `str::replace` specialised to a one-character pattern and
replacement, the only shape compiler.rs uses
(`replace("/", "_")`, `replace("\\", "_")`). -/
def replaceChar (pat rep : Char) (s : String) : String :=
  String.mk (s.data.map (fun c => if c == pat then rep else c))

/-- Rust `str::split_once('=')`: split at the first occurrence of the
separator, if any. -/
def splitOnceChar (sep : Char) (s : String) : Option (String × String) :=
  match splitCharList sep s.data with
  | [] => none
  | [_] => none
  | x :: rest =>
    some (String.mk x, String.mk (List.intercalate [sep] rest))

/-- Rust `str::to_lowercase` restricted to ASCII, as used for entry-file
extension detection and case-insensitive directory-name comparison. -/
def asciiLower (s : String) : String :=
  String.mk (s.data.map (fun c =>
    if 'A' ≤ c && c ≤ 'Z' then Char.ofNat (c.toNat + 32) else c))

/-- Rust `str::eq_ignore_ascii_case`. -/
def eqIgnoreAsciiCase (a b : String) : Bool :=
  asciiLower a == asciiLower b

/-! ## BuildPlanner: `parse_requirements_file` and `parse_env_file` -/

/-- The version-specifier delimiters of `parse_requirements_file`
(`line.split(&['=', '<', '>', '!', '['][..])`). -/
def reqDelims : List Char := ['=', '<', '>', '!', '[']

/-- `parse_requirements_file` (compiler.rs:196-215) applied to the content
of `requirements.txt`; `none` models an absent/unreadable file, for which
the Rust code returns `Vec::new()`. -/
def parse_requirements_file (content : Option String) : List String :=
  match content with
  | none => []
  | some c =>
    (((rustLines c).filter
        (fun line => !rustIsEmpty (rustTrim line)
          && !(rustStartsWith (rustTrim line) ("#")))).map
      (fun line =>
        rustTrim (String.mk (line.data.takeWhile (fun ch => !reqDelims.contains ch))))).filter
      (fun name => !rustIsEmpty name)

/-- `parse_env_file` (compiler.rs:218-237) applied to the content of
`.env`; the `HashMap` is modelled as an association list updated in line
order, later lines overwriting earlier keys as `HashMap::insert` does. -/
def parse_env_file (content : Option String) : List (String × String) :=
  match content with
  | none => []
  | some c =>
    (rustLines c).foldl
      (fun acc rawLine =>
        let line := rustTrim rawLine
        if rustIsEmpty line || rustStartsWith line ("#") then acc
        else
          match splitOnceChar '=' line with
          | none => acc
          | some (key, value) =>
            let k := rustTrim key
            let v := trimMatches '\'' (trimMatches '"' (rustTrim value))
            (acc.filter (fun p => p.1 != k)) ++ [(k, v)])
      []

/-! ## SourceInstrumenter: backup filenames -/

/-- The backup filename computed by `inject_license_wrapper`
(compiler.rs:682):
`format!("_backup_{}", entry_file.replace("/", "_").replace("\\", "_"))`. -/
def injectBackupFilename (entry_file : String) : String :=
  ("_backup_") ++ replaceChar '\\' '_' (replaceChar '/' '_' entry_file)

/-- The backup filename computed by `restore_original_file`
(compiler.rs:898), written there a second time with the same formula. -/
def restoreBackupFilename (entry_file : String) : String :=
  ("_backup_") ++ replaceChar '\\' '_' (replaceChar '/' '_' entry_file)

/-! ## EmbeddedValidationProtocol, native-compiled (Python) variant

Runtime behaviour of the Python source that `inject_license_wrapper`
(compiler.rs:696-826) bakes into the produced executable. The current
Unix time, the cached record on disk and the outcome of the HTTP request
are explicit parameters. -/

/-- The license cache record `_lw_save_cache` writes to
`license_<md5(key)[:8]>.json`. -/
structure LwCache where
  license_key : String
  last_validated : Int
  valid : Bool
  hwid : String
deriving DecidableEq

/-- Outcome of the HTTP POST to `<server_url>/api/v1/license/validate`:
a parsed JSON response (`status`, optional `message`), a
`urllib.error.URLError` (server unreachable), or any other exception. -/
inductive LwNet where
  | response (status : String) (message : Option String)
  | unreachable (reason : String)
  | failure (msg : String)
deriving DecidableEq

/-- Terminal behaviour of a validation run inside the produced
executable: return `True` and continue, or print a message and
`sys.exit(1)`. -/
inductive LwOutcome where
  | proceed
  | exit (printed : String)
deriving DecidableEq

/-- Result of `_lw_validate`: outcome, cache file after the run, and
whether an HTTP request was attempted. -/
structure LwRun where
  outcome : LwOutcome
  cache : Option LwCache
  networkCalled : Bool
deriving DecidableEq

/-- `_LW_GRACE_PERIOD = 24 * 60 * 60` seconds. -/
def LW_GRACE_PERIOD : Int := 24 * 60 * 60

/-- `_lw_check_grace_period`: the cached record exists, is marked valid,
and its age is strictly below the grace period. -/
def lw_check_grace_period (cache : Option LwCache) (now : Int) : Bool :=
  match cache with
  | some c =>
    if c.valid then
      decide (now - c.last_validated < LW_GRACE_PERIOD)
    else false
  | none => false

/-- `_lw_validate` (generated Python, compiler.rs:763-823). `hwid` is the
machine fingerprint `_lw_get_hwid()` computes; the cache-file writes of
`_lw_save_cache` are modelled as always succeeding (the generated code
swallows cache I/O errors). -/
def lw_validate (license_key server_url hwid : String) (net : LwNet)
    (cache : Option LwCache) (now : Int) : LwRun :=
  if license_key == ("DEMO") || license_key == ("") then
    { outcome := .proceed, cache := cache, networkCalled := false }
  else
    match net with
    | .response status message =>
      if status == ("valid") then
        { outcome := .proceed
          cache := some { license_key := license_key, last_validated := now,
                          valid := true, hwid := hwid }
          networkCalled := true }
      else
        { outcome := .exit (("[ERROR] License error: ") ++ message.getD ("License invalid"))
          cache := some { license_key := license_key, last_validated := now,
                          valid := false, hwid := hwid }
          networkCalled := true }
    | .unreachable _ =>
      if lw_check_grace_period cache now then
        { outcome := .proceed, cache := cache, networkCalled := true }
      else
        { outcome := .exit
            ("[ERROR] Cannot verify license. Please ensure the license server is reachable.")
          cache := cache, networkCalled := true }
    | .failure msg =>
      { outcome := .exit (("[!] License validation error: ") ++ msg)
        cache := cache, networkCalled := true }

/-! ## EmbeddedValidationProtocol, bundled-runtime (Node.js) variant

Runtime behaviour of `_cv_license_wrapper.js` generated by
`run_nodejs_compilation` (compiler.rs:2048-2141). -/

/-- Outcome of the Node HTTP request: a response with an HTTP status code
and an optionally-parseable JSON body (`status`, optional `message`), or
a connection error. -/
inductive NodeNet where
  | response (statusCode : Nat) (body : Option (String × Option String))
  | connError (message : String)
deriving DecidableEq

/-- Result of `validateLicense()`: outcome plus whether an HTTP request
was attempted. The generated JavaScript keeps no cache at all. -/
structure NodeRun where
  outcome : LwOutcome
  networkCalled : Bool
deriving DecidableEq

/-- `validateLicense` (generated JavaScript, compiler.rs:2067-2138).
`urlValid` models whether `new URL(API_URL)` succeeds. -/
def validateLicense (licenseKey : String) (urlValid : Bool) (net : NodeNet) : NodeRun :=
  if licenseKey == ("DEMO") then
    { outcome := .proceed, networkCalled := false }
  else if !urlValid then
    { outcome := .exit ("[CodeVault] Invalid API URL"), networkCalled := false }
  else
    match net with
    | .connError m =>
      { outcome := .exit (("[CodeVault] Connection error: ") ++ m), networkCalled := true }
    | .response code body =>
      if code != 200 then
        { outcome := .exit (("[CodeVault] Validation failed (HTTP ") ++ toString code ++ (")"))
          networkCalled := true }
      else
        match body with
        | none =>
          { outcome := .exit ("[CodeVault] Failed to parse validation response")
            networkCalled := true }
        | some (status, message) =>
          if status == ("valid") then
            { outcome := .proceed, networkCalled := true }
          else
            { outcome := .exit (("[CodeVault] License invalid: ") ++ message.getD ("Unknown error"))
              networkCalled := true }

/-! ## Timed demo mode -/

/-- Terminal behaviour of `_lw_check_demo`: proceed printing the
remaining minutes, or print the trial-expired message and exit. -/
inductive DemoOutcome where
  | proceed (remainingMins : Int)
  | exit (printed : String)
deriving DecidableEq

/-- Result of `_lw_check_demo`: outcome, the `start_time` persisted in
`demo_started.json` after the check, and (vacuously) whether the network
was touched. -/
structure DemoRun where
  outcome : DemoOutcome
  marker : Int
  networkCalled : Bool
deriving DecidableEq

/-- `_lw_check_demo` (generated Python, compiler.rs:836-875). `marker` is
the `start_time` stored in `demo_started.json`, `none` on the first run
(the code then persists `now`). Marker file I/O is modelled as
succeeding; on an I/O exception the generated code proceeds. -/
def lw_check_demo (durationMinutes : Nat) (marker : Option Int) (now : Int) : DemoRun :=
  let demoDurationSeconds : Int := (durationMinutes : Int) * 60
  let start := match marker with
    | some s => s
    | none => now
  let elapsed := now - start
  let remaining := demoDurationSeconds - elapsed
  if remaining ≤ 0 then
    { outcome := .exit ("[DEMO EXPIRED] Your trial period has ended.")
      marker := start, networkCalled := false }
  else
    { outcome := .proceed (remaining / 60), marker := start, networkCalled := false }

/-! ## BuildPlanner: project scanning

The project directory is modelled as a tree of named entries; the parsed
`package.json` manifests are carried alongside (JSON parsing itself is
modelled as the already-extracted dependency name lists). -/

/-- A directory entry: a regular file with its content, or a
subdirectory with its children (in `read_dir` order). -/
inductive Entry where
  | file (name : String) (content : String)
  | dir (name : String) (children : List Entry)

/-- `path.join("__init__.py").exists()`: some child is named
`__init__.py`. -/
def hasInitPy (children : List Entry) : Bool :=
  children.any (fun e =>
    match e with
    | .file n _ => n == ("__init__.py")
    | .dir n _ => n == ("__init__.py"))

/-- Is the entry a regular file? -/
def isFileEntry : Entry → Bool
  | .file _ _ => true
  | .dir _ _ => false

mutual

/-- One step of `detect_python_packages::scan_dir` on a single entry:
a directory containing `__init__.py` contributes its dotted relative
path (unless that path starts with `__` or `.`) and is recursed into. -/
def pkgsOfEntry (pre : String) : Entry → List String
  | .file _ _ => []
  | .dir n cs =>
    if hasInitPy cs then
      let rel := if rustIsEmpty pre then n else pre ++ (".") ++ n
      (if !(rustStartsWith rel ("__")) && !(rustStartsWith rel (".")) then [rel] else [])
        ++ pkgsOfList rel cs
    else []

/-- `scan_dir` over a list of entries, left to right. -/
def pkgsOfList (pre : String) : List Entry → List String
  | [] => []
  | e :: es => pkgsOfEntry pre e ++ pkgsOfList pre es

end

/-- `detect_python_packages` (compiler.rs:82-112). -/
def detect_python_packages (entries : List Entry) : List String :=
  pkgsOfList ("") entries

/-- The `common_data_names` list of `detect_data_directories`. -/
def commonDataNames : List String :=
  [("config"), ("templates"), ("static"), ("assets"), ("data"),
   ("resources"), ("public"), ("views")]

/-- `detect_data_directories` (compiler.rs:115-156). -/
def detect_data_directories (entries : List Entry) : List String :=
  entries.filterMap (fun e =>
    match e with
    | .file _ _ => none
    | .dir dirName cs =>
      if rustStartsWith dirName (".") || rustStartsWith dirName ("__")
          || dirName == ("venv") || dirName == (".venv") || dirName == ("node_modules") then
        none
      else
        let isCommonData := commonDataNames.any (fun n => eqIgnoreAsciiCase dirName n)
        let isDataDir := !hasInitPy cs
        if isCommonData || isDataDir then
          if cs.any isFileEntry then some dirName else none
        else none)

/-- The common Python entry filenames of `detect_entry_candidates`. -/
def pyCommon : List String :=
  [("main.py"), ("app.py"), ("run.py"), ("server.py"), ("__main__.py")]

/-- The common JavaScript entry filenames of `detect_entry_candidates`. -/
def jsCommon : List String :=
  [("index.js"), ("main.js"), ("app.js"), ("server.js"), ("start.js")]

/-- `detect_entry_candidates` (compiler.rs:159-193): common names are
inserted at the front, heuristic matches pushed at the back. -/
def detect_entry_candidates (entries : List Entry) : List String :=
  entries.foldl
    (fun candidates e =>
      match e with
      | .dir _ _ => candidates
      | .file name content =>
        if rustEndsWith name (".py") then
          if pyCommon.contains name then name :: candidates
          else if containsSub content ("if __name__") && containsSub content ("__main__") then
            candidates ++ [name]
          else candidates
        else if rustEndsWith name (".js") || rustEndsWith name (".mjs")
            || rustEndsWith name (".ts") then
          if jsCommon.contains name then name :: candidates
          else candidates ++ [name]
        else candidates)
    []

/-- Content of the first top-level file with the given name, if any. -/
def findFile (name : String) (entries : List Entry) : Option String :=
  entries.findSome? (fun e =>
    match e with
    | .file n c => if n == name then some c else none
    | .dir _ _ => none)

/-- A parsed `package.json`: the dependency and dev-dependency name
sets. -/
structure PackageJson where
  dependencies : List String
  devDependencies : List String
deriving DecidableEq

/-- `FrontendInfo` (compiler.rs:74-79). -/
structure FrontendInfo where
  framework : String
  path : String
  has_dist : Bool
  build_command : String
deriving DecidableEq

/-- `detect_frontend_in_dir` (compiler.rs:254-296). `pj` is the parsed
manifest (`none` models a read or JSON-parse failure, for which the Rust
falls through to `None`); `hasDist` models `dir.join("dist").exists()`. -/
def detect_frontend_in_dir (pj : Option PackageJson) (hasDist : Bool)
    (dirPath : String) : Option FrontendInfo :=
  match pj with
  | none => none
  | some j =>
    let allDeps := j.dependencies ++ j.devDependencies
    let pick : Option (String × String) :=
      if allDeps.any (fun d => containsSub d ("react")) then some (("react"), ("npm run build"))
      else if allDeps.any (fun d => containsSub d ("vue")) then some (("vue"), ("npm run build"))
      else if allDeps.any (fun d => containsSub d ("@angular")) then some (("angular"), ("ng build"))
      else if allDeps.any (fun d => d == ("next")) then some (("next"), ("npm run build"))
      else if allDeps.any (fun d => d == ("vite")) then some (("vite"), ("npm run build"))
      else none
    match pick with
    | none => none
    | some (framework, buildCmd) =>
      some { framework := framework, path := dirPath,
             has_dist := hasDist, build_command := buildCmd }

/-- The observable state of a project directory, as consumed by
`scan_project_structure`: the entry tree plus the `package.json`
manifests of the root and of a conventional `frontend/` subdirectory
(outer `Option` = file existence, inner `Option` = JSON parseability). -/
structure ProjectListing where
  entries : List Entry
  rootPackageJson : Option (Option PackageJson)
  frontendPackageJson : Option (Option PackageJson)
  rootHasDist : Bool
  frontendHasDist : Bool
  path : String

/-- `detect_frontend_framework` (compiler.rs:240-252): root manifest
first, else the `frontend/` subdirectory. -/
def detect_frontend_framework (L : ProjectListing) : Option FrontendInfo :=
  match L.rootPackageJson with
  | none =>
    match L.frontendPackageJson with
    | none => none
    | some pj => detect_frontend_in_dir pj L.frontendHasDist (L.path ++ ("/frontend"))
  | some pj => detect_frontend_in_dir pj L.rootHasDist L.path

/-- `ProjectStructure` (compiler.rs:60-70). -/
structure ProjectStructure where
  packages : List String
  data_dirs : List String
  entry_candidates : List String
  has_requirements : Bool
  requirements_packages : List String
  has_env : Bool
  env_keys : List String
  has_frontend : Bool
  frontend_framework : Option String
deriving DecidableEq

/-- `scan_project_structure` (compiler.rs:1534-1574). `fs` is `none`
when `path.exists()` is false, in which case the command returns
`Err("Project path does not exist: ...")`. -/
def scan_project_structure (fs : Option ProjectListing) (project_path : String) :
    Except String ProjectStructure :=
  match fs with
  | none => .error (("Project path does not exist: ") ++ project_path)
  | some L =>
    let hasRequirements := (findFile ("requirements.txt") L.entries).isSome
    let envContent := findFile (".env") L.entries
    let envValues := parse_env_file envContent
    let frontendInfo := detect_frontend_framework L
    .ok
      { packages := detect_python_packages L.entries
        data_dirs := detect_data_directories L.entries
        entry_candidates := detect_entry_candidates L.entries
        has_requirements := hasRequirements
        requirements_packages :=
          if hasRequirements then parse_requirements_file (findFile ("requirements.txt") L.entries)
          else []
        has_env := envContent.isSome
        env_keys := envValues.map (fun p => p.1)
        has_frontend := frontendInfo.isSome
        frontend_framework := frontendInfo.map (fun f => f.framework) }

/-! ## SourceInstrumenter: injection and restore over explicit file state -/

/-- The on-disk state of one (project, entry file) pair: the entry
file's content and the backup file's content (`none` = absent or
unreadable). -/
structure EntryFs where
  entryContent : Option String
  backupContent : Option String := none
deriving DecidableEq

/-- Per-operation I/O success oracle plus the environment-dependent
inputs of one compilation job (detection results, child-process
behaviour). Quantifying over this structure covers every I/O
interleaving the Rust code can encounter. -/
structure JobEnv where
  projectExists : Bool := true
  requirementsFileExists : Bool := true
  pipOk : Bool := true
  backupWriteOk : Bool := true
  wrappedWriteOk : Bool := true
  envWriteOk : Bool := true
  depsWriteOk : Bool := true
  frontendDirExists : Bool := true
  npmInstallOk : Bool := true
  npmBuildOk : Bool := true
  distExists : Bool := true
  buildDirExists : Bool := false
  detectedFrontend : Option String := none
  detectedPackages : List String := []
  detectedDataDirs : List String := []
  spawnOk : Bool := true
  stderrLines : List String := []
  waitStatus : Option Bool := some true
  copyFrontendOk : Bool := true
  launcherOk : Bool := true
deriving DecidableEq

/-- I/O success oracle for `restore_original_file`'s two operations
(`fs::copy` and `fs::remove_file`), kept separate from `JobEnv` because
restore failures are swallowed. -/
structure RestoreEnv where
  copyOk : Bool := true
  removeOk : Bool := true
deriving DecidableEq

/-- `StartCompileRequest` (compiler.rs:9-38); the `HashMap` of env
values is modelled as an association list. -/
structure StartCompileRequest where
  project_path : String
  entry_file : String
  output_name : Option String := none
  output_dir : Option String := none
  license_key : Option String := none
  server_url : Option String := none
  onefile : Option Bool := none
  console : Option Bool := none
  icon_path : Option String := none
  include_packages : Option (List String) := none
  exclude_packages : Option (List String) := none
  include_data_dirs : Option (List String) := none
  include_data_files : Option (List String) := none
  env_values : Option (List (String × String)) := none
  install_requirements : Option Bool := none
  requirements_path : Option String := none
  build_frontend : Option Bool := none
  frontend_dir : Option String := none
  create_launcher : Option Bool := none
  bundle_requirements : Option Bool := none
  split_frontend : Option Bool := none
  demo_mode : Option Bool := none
  demo_duration_minutes : Option Nat := none
deriving DecidableEq

/-- The license wrapper text `inject_license_wrapper` prepends,
abbreviated to its banner and interpolated literals; the behaviour of
the elided Python body is `lw_validate` above. -/
def licenseWrapperText (license_key server_url : String) : String :=
  ("# ============ LICENSE WRAPPER - DO NOT REMOVE ============\n")
    ++ ("LICENSE_KEY = \"") ++ license_key ++ ("\"\n")
    ++ ("SERVER_URL = \"") ++ server_url ++ ("\"\n")
    ++ ("# ============ END LICENSE WRAPPER ============\n\n")

/-- The demo-mode text (compiler.rs:829-881), emitted only when
`demo_mode && demo_duration_minutes > 0`; behaviour of the elided body
is `lw_check_demo` above. -/
def demoCodeText (demo_mode : Bool) (demo_duration_minutes : Nat) : String :=
  if demo_mode && demo_duration_minutes > 0 then
    ("# ============ DEMO MODE - TIME LIMITED ============\n")
      ++ ("DEMO_DURATION_SECONDS = ") ++ toString demo_duration_minutes ++ (" * 60\n")
      ++ ("# ============ END DEMO MODE ============\n\n")
  else ("")

/-- `inject_license_wrapper` (compiler.rs:663-890): read the entry file,
write the backup, then overwrite the entry file with
`wrapper_code + demo_code + original`. `entryContent = none` covers both
a missing entry file and an unreadable one; `backupWriteOk` covers the
`create_dir_all` and the backup write. -/
def inject_license_wrapper (io : JobEnv) (fs : EntryFs) (entry_file license_key server_url : String)
    (demo_mode : Bool) (demo_duration_minutes : Nat) : EntryFs × Except String Unit :=
  match fs.entryContent with
  | none => (fs, .error (("Entry file not found: ") ++ entry_file))
  | some original =>
    if !io.backupWriteOk then
      (fs, .error ("Failed to create backup"))
    else
      let fs1 : EntryFs := { fs with backupContent := some original }
      if !io.wrappedWriteOk then
        (fs1, .error ("Failed to write wrapped file"))
      else
        let wrapped := licenseWrapperText license_key server_url
          ++ demoCodeText demo_mode demo_duration_minutes ++ original
        ({ fs1 with entryContent := some wrapped }, .ok ())

/-- The escaping of `inject_env_values`
(`value.replace("\\", "\\\\").replace("\"", "\\\"")`), as a single pass
(the two sequential replaces commute into one because the first
introduces no quotes and the second rewrites no backslashes it made). -/
def pyEscape (s : String) : String :=
  String.mk (s.data.foldr
    (fun c acc =>
      if c == '\\' then '\\' :: '\\' :: acc
      else if c == '"' then '\\' :: '"' :: acc
      else c :: acc)
    [])

/-- The environment-defaults block generated by `inject_env_values`
(compiler.rs:578-584). -/
def envCodeText (env_values : List (String × String)) : String :=
  ("# ============ BAKED ENVIRONMENT VARIABLES ============\nimport os as _env_os\n")
    ++ String.join (env_values.map (fun p =>
        ("_env_os.environ.setdefault(\"") ++ p.1 ++ ("\", \"") ++ pyEscape p.2 ++ ("\")\n")))
    ++ ("# ============ END BAKED ENVIRONMENT ============\n\n")

/-- `inject_env_values` (compiler.rs:564-592). -/
def inject_env_values (io : JobEnv) (fs : EntryFs) (env_values : List (String × String)) :
    EntryFs × Except String Unit :=
  if env_values.isEmpty then (fs, .ok ())
  else
    match fs.entryContent with
    | none => (fs, .error ("Failed to read entry file"))
    | some content =>
      if !io.envWriteOk then (fs, .error ("Failed to write env values"))
      else ({ fs with entryContent := some (envCodeText env_values ++ content) }, .ok ())

/-- The first-run dependency-installer block (compiler.rs:610-653),
abbreviated to its banner, which contains the idempotency marker
`AUTO-DEPENDENCY INSTALLER` the code checks for. -/
def depsInstallerText : String :=
  ("# ============ AUTO-DEPENDENCY INSTALLER ============\n")
    ++ ("# ============ END AUTO-DEPENDENCY INSTALLER ============\n\n")

/-- `inject_first_run_deps_installer` (compiler.rs:596-661): idempotent
via the marker-string self-check. -/
def inject_first_run_deps_installer (io : JobEnv) (fs : EntryFs) : EntryFs × Except String Unit :=
  match fs.entryContent with
  | none => (fs, .error ("Failed to read entry file"))
  | some content =>
    if containsSub content ("AUTO-DEPENDENCY INSTALLER") then (fs, .ok ())
    else if !io.depsWriteOk then (fs, .error ("Failed to write deps installer"))
    else ({ fs with entryContent := some (depsInstallerText ++ content) }, .ok ())

/-- `restore_original_file` (compiler.rs:893-911): if the backup exists,
copy it over the entry file and delete it; both I/O failures are only
printed as warnings and the function always returns normally (its Rust
return type is `()`), which is why this model is total and returns no
`Except`. -/
def restore_original_file (r : RestoreEnv) (fs : EntryFs) : EntryFs :=
  match fs.backupContent with
  | none => fs
  | some b =>
    let fs1 : EntryFs := if r.copyOk then { fs with entryContent := some b } else fs
    if r.removeOk then { fs1 with backupContent := none } else fs1

/-! ## CompilerInvoker / JobLifecycle: `run_nuitka_compilation`

The pipeline is written as a chain of stage functions mirroring the
source's top-to-bottom control flow (each early `return Err` becomes a
terminal branch). Events keep the progress value, stage tag and the
terminal success flag; free-text messages are elided. `Ok(job_id)` is
modelled as `Except.ok ()` (the UUID is random and never inspected). -/

/-- One `compilation-progress` or `compilation-result` event. -/
inductive Event where
  | progress (p : Nat) (stage : String)
  | result (success : Bool)
deriving DecidableEq

deriving instance DecidableEq for Except

/-- Outcome of one job: emitted events in order, final file state, and
the command's return value. -/
structure JobOutput where
  events : List Event
  fs : EntryFs
  ret : Except String Unit
deriving DecidableEq

/-- `build_frontend_project` (compiler.rs:341-405): npm install, npm run
build, then report `dist/` (with a ready event) or fall back to
`build/` (without one). -/
def build_frontend_project (io : JobEnv) (frontendPath : String) :
    List Event × Except String String :=
  let ev0 := [Event.progress 15 ("building-frontend")]
  if !io.npmInstallOk then (ev0, .error ("npm install failed"))
  else
    let ev1 := ev0 ++ [Event.progress 20 ("building-frontend")]
    if !io.npmBuildOk then (ev1, .error ("npm build failed"))
    else if !io.distExists then
      if io.buildDirExists then (ev1, .ok (frontendPath ++ ("/build")))
      else (ev1, .error ("Build folder (dist/ or build/) not found after npm build"))
    else (ev1 ++ [Event.progress 25 ("frontend-ready")], .ok (frontendPath ++ ("/dist")))

/-- Classification of one Nuitka stderr line (compiler.rs:1311-1321):
returns the updated progress counter and the emitted event. -/
def nuitkaLineStage (progress : Nat) (line : String) : Nat × Event :=
  if containsSub line ("Nuitka:INFO:") then
    let p := min (progress + 2) 90
    (p, .progress p ("processing"))
  else if containsSub line ("Nuitka:WARNING:") then
    (progress, .progress progress ("warning"))
  else if containsSub line ("Nuitka:ERROR:") then
    (progress, .progress progress ("error"))
  else
    let p := min (progress + 1) 90
    (p, .progress p ("compiling"))

/-- The stderr streaming loop (compiler.rs:1304-1330), one event per
line, threading the progress counter (started at 10). -/
def nuitkaStderrEvents (progress : Nat) : List String → List Event
  | [] => []
  | l :: ls =>
    let pe := nuitkaLineStage progress l
    pe.2 :: nuitkaStderrEvents pe.1 ls

/-- Events of the success branch after `status.success()`
(compiler.rs:1335-1435): optional split-frontend copy, optional
launcher, completion, terminal success event. -/
def successEvents (req : StartCompileRequest) (io : JobEnv)
    (frontendDist : Option String) : List Event :=
  (match frontendDist with
   | some _ =>
     if req.split_frontend.getD false then
       [Event.progress 95 ("packaging")]
         ++ (if io.copyFrontendOk then [Event.progress 97 ("packaging")]
             else [Event.progress 97 ("warning")])
     else []
   | none => []) ++
  (if req.create_launcher.getD false || frontendDist.isSome then
     (if io.launcherOk then [Event.progress 98 ("finalizing")] else [])
   else []) ++
  [Event.progress 100 ("complete"), Event.result true]

/-- Stage: await the child (compiler.rs:1333-1462); every branch emits
its terminal event and then restores the original entry file. -/
def stWait (req : StartCompileRequest) (io : JobEnv) (renv : RestoreEnv) (fs : EntryFs)
    (frontendDist : Option String) : JobOutput :=
  match io.waitStatus with
  | some true =>
    { events := successEvents req io frontendDist
      fs := restore_original_file renv fs
      ret := .ok () }
  | some false =>
    { events := [Event.result false]
      fs := restore_original_file renv fs
      ret := .error ("Compilation failed") }
  | none =>
    { events := [Event.result false]
      fs := restore_original_file renv fs
      ret := .error ("Failed to wait for Nuitka") }

/-- Stage: spawn the Nuitka process and stream its stderr
(compiler.rs:1284-1330). A spawn failure returns through `map_err`/`?`
without reaching the restore call at compiler.rs:1460. -/
def stSpawnLoopWait (req : StartCompileRequest) (io : JobEnv) (renv : RestoreEnv)
    (fs : EntryFs) (frontendDist : Option String) : JobOutput :=
  if !io.spawnOk then
    { events := [Event.result false], fs := fs, ret := .error ("Failed to start Nuitka") }
  else
    let o := stWait req io renv fs frontendDist
    { o with events := nuitkaStderrEvents 10 io.stderrLines ++ o.events }

/-- Events of the argument-synthesis section (compiler.rs:1126-1281),
ending with the unconditional progress-5 "Running Nuitka" event. -/
def argsEvents (req : StartCompileRequest) (io : JobEnv)
    (frontendDist : Option String) : List Event :=
  let packages := match req.include_packages with
    | some p => p
    | none => io.detectedPackages
  let dataDirs := match req.include_data_dirs with
    | some d => d
    | none => io.detectedDataDirs
  (if !packages.isEmpty then [Event.progress 6 ("preparing")] else []) ++
  (match req.exclude_packages with
   | some ex => if !ex.isEmpty then [Event.progress 6 ("preparing")] else []
   | none => []) ++
  (if !dataDirs.isEmpty then [Event.progress 7 ("preparing")] else []) ++
  (if req.bundle_requirements.getD false && io.requirementsFileExists then
     [Event.progress 8 ("preparing")]
   else []) ++
  (match frontendDist with
   | some _ => [Event.progress 8 ("preparing")]
   | none => []) ++
  [Event.progress 5 ("compiling")]

/-- Stage: argument synthesis, then spawn. -/
def stArgs (req : StartCompileRequest) (io : JobEnv) (renv : RestoreEnv) (fs : EntryFs)
    (frontendDist : Option String) : JobOutput :=
  let o := stSpawnLoopWait req io renv fs frontendDist
  { o with events := argsEvents req io frontendDist ++ o.events }

/-- Stage: optional frontend build (compiler.rs:1081-1124). An explicit
`frontend_dir` failure restores and fails the job; an auto-detected
build failure only emits a warning event and continues. -/
def stFrontend (req : StartCompileRequest) (io : JobEnv) (renv : RestoreEnv)
    (fs : EntryFs) : JobOutput :=
  if req.build_frontend.getD false then
    match req.frontend_dir with
    | some fdir =>
      if io.frontendDirExists then
        match build_frontend_project io (req.project_path ++ ("/") ++ fdir) with
        | (evs, .ok dist) =>
          let o := stArgs req io renv fs (some dist)
          { o with events := evs ++ o.events }
        | (evs, .error e) =>
          { events := evs ++ [Event.result false]
            fs := restore_original_file renv fs
            ret := .error e }
      else stArgs req io renv fs none
    | none =>
      match io.detectedFrontend with
      | some fpath =>
        match build_frontend_project io fpath with
        | (evs, .ok dist) =>
          let o := stArgs req io renv fs (some dist)
          { o with events := evs ++ o.events }
        | (evs, .error _) =>
          let o := stArgs req io renv fs none
          { o with events := evs ++ [Event.progress 25 ("warning")] ++ o.events }
      | none => stArgs req io renv fs none
  else stArgs req io renv fs none

/-- Stage: optional first-run dependency installer (compiler.rs:1056-
1079); on failure the entry file is restored before the terminal
event. -/
def stBundle (req : StartCompileRequest) (io : JobEnv) (renv : RestoreEnv)
    (fs : EntryFs) : JobOutput :=
  if req.bundle_requirements.getD false && io.requirementsFileExists then
    match inject_first_run_deps_installer io fs with
    | (fs1, .ok _) =>
      let o := stFrontend req io renv fs1
      { o with events := [Event.progress 5 ("injecting-deps")] ++ o.events }
    | (fs1, .error e) =>
      { events := [Event.progress 5 ("injecting-deps")] ++ [Event.result false]
        fs := restore_original_file renv fs1
        ret := .error e }
  else stFrontend req io renv fs

/-- Stage: optional environment-value injection (compiler.rs:1032-1054);
on failure the entry file is restored before the terminal event. -/
def stEnv (req : StartCompileRequest) (io : JobEnv) (renv : RestoreEnv)
    (fs : EntryFs) : JobOutput :=
  match req.env_values with
  | some vals =>
    if !vals.isEmpty then
      match inject_env_values io fs vals with
      | (fs1, .ok _) =>
        let o := stBundle req io renv fs1
        { o with events := [Event.progress 4 ("injecting-env")] ++ o.events }
      | (fs1, .error e) =>
        { events := [Event.progress 4 ("injecting-env")] ++ [Event.result false]
          fs := restore_original_file renv fs1
          ret := .error e }
    else stBundle req io renv fs
  | none => stBundle req io renv fs

/-- Stage: optional `pip install -r` (compiler.rs:1016-1030, calling
`install_requirements` at compiler.rs:299-338). Note that the failure
branch returns the terminal error WITHOUT calling
`restore_original_file`. -/
def stInstall (req : StartCompileRequest) (io : JobEnv) (renv : RestoreEnv)
    (fs : EntryFs) : JobOutput :=
  if req.install_requirements.getD false && io.requirementsFileExists then
    let ev := [Event.progress 5 ("installing")]
    if io.pipOk then
      let o := stEnv req io renv fs
      { o with events := ev ++ [Event.progress 10 ("installed")] ++ o.events }
    else
      { events := ev ++ [Event.result false], fs := fs, ret := .error ("pip install failed") }
  else stEnv req io renv fs

/-- Stage: license-wrapper injection (compiler.rs:983-1014), performed
whenever the effective license key (default `"DEMO"`) is non-empty. -/
def stInject (req : StartCompileRequest) (io : JobEnv) (renv : RestoreEnv)
    (fs : EntryFs) : JobOutput :=
  if !(rustIsEmpty (req.license_key.getD ("DEMO"))) then
    match inject_license_wrapper io fs req.entry_file (req.license_key.getD ("DEMO"))
        (req.server_url.getD ("http://localhost:8000")) (req.demo_mode.getD false)
        (req.demo_duration_minutes.getD 60) with
    | (fs1, .ok _) =>
      let o := stInstall req io renv fs1
      { o with events := [Event.progress 3 ("injecting")] ++ o.events }
    | (fs1, .error e) =>
      { events := [Event.progress 3 ("injecting")] ++ [Event.result false]
        fs := fs1, ret := .error e }
  else stInstall req io renv fs

/-- Is the entry file treated as JavaScript/TypeScript
(compiler.rs:950-954)? -/
def isNodeJsEntry (entry_file : String) : Bool :=
  let lower := asciiLower entry_file
  rustEndsWith lower (".js") || rustEndsWith lower (".ts")
    || rustEndsWith lower (".mjs") || rustEndsWith lower (".cjs")

/-- `run_nuitka_compilation` (compiler.rs:916-1463): the whole job
pipeline. -/
def run_nuitka_compilation (req : StartCompileRequest) (io : JobEnv) (renv : RestoreEnv)
    (fs : EntryFs) : JobOutput :=
  let ev0 := [Event.progress 0 ("init")]
  if !io.projectExists then
    { events := ev0 ++ [Event.result false], fs := fs
      ret := .error ("Project path does not exist") }
  else if isNodeJsEntry req.entry_file then
    { events := ev0 ++ [Event.result false], fs := fs
      ret := .error ("Node.js Desktop Compilation Not Yet Supported") }
  else
    let o := stInject req io renv fs
    { o with events := ev0 ++ o.events }

/-! ## Observations on event streams -/

/-- The progress values of an event stream, in delivery order. -/
def progressValues (es : List Event) : List Nat :=
  es.filterMap (fun e =>
    match e with
    | .progress p _ => some p
    | .result _ => none)

/-- Is a list of progress values non-decreasing? -/
def nondecreasing : List Nat → Bool
  | [] => true
  | [_] => true
  | a :: b :: t => decide (a ≤ b) && nondecreasing (b :: t)

/-- Are all progress values in the stream at most `n`? -/
def progressLeBool (n : Nat) (es : List Event) : Bool :=
  es.all (fun e =>
    match e with
    | .progress p _ => decide (p ≤ n)
    | .result _ => true)

/-- Number of terminal `compilation-result` events in the stream. -/
def resultCount (es : List Event) : Nat :=
  es.countP (fun e =>
    match e with
    | .result _ => true
    | .progress _ _ => false)

/-! ## Concrete instances used by counterexamples and witnesses -/

/-- A request that injects the license wrapper and then installs
requirements (`install_requirements = true`). -/
def pipFailRequest : StartCompileRequest :=
  { project_path := ("C:/proj"), entry_file := ("main.py"),
    install_requirements := some true }

/-- An environment where everything succeeds except `pip install`. -/
def pipFailEnv : JobEnv := { pipOk := false }

/-- An entry file holding the original user source. -/
def entryFsOriginal : EntryFs := { entryContent := some ("print(1)\n") }

/-- A request with one explicitly included package. -/
def pkgRequest : StartCompileRequest :=
  { project_path := ("C:/proj"), entry_file := ("main.py"),
    include_packages := some [("app")] }

/-- A cached record marked valid at Unix time 0. -/
def cacheFresh : LwCache :=
  { license_key := ("PRO-1"), last_validated := 0, valid := true, hwid := ("hw") }

/-! # Theorems

Helper lemmas first, then one theorem (plus witness or counterexample)
per specification claim. -/

theorem progressLeBool_append (n : Nat) (a b : List Event) :
    progressLeBool n (a ++ b) = (progressLeBool n a && progressLeBool n b) := by
  simp [progressLeBool, List.all_append]

theorem resultCount_append (a b : List Event) :
    resultCount (a ++ b) = resultCount a + resultCount b := by
  simp [resultCount, List.countP_append]

theorem progressLeBool_mono {n m : Nat} (hnm : n ≤ m) {es : List Event}
    (h : progressLeBool n es = true) : progressLeBool m es = true := by
  simp only [progressLeBool, List.all_eq_true] at h ⊢
  intro e he
  have := h e he
  cases e with
  | progress p s => simp only [decide_eq_true_eq] at this ⊢; omega
  | result b => simp

theorem progressLeBool_cons (n : Nat) (e : Event) (es : List Event) :
    progressLeBool n (e :: es)
      = ((match e with
          | .progress p _ => decide (p ≤ n)
          | .result _ => true) && progressLeBool n es) := by
  simp [progressLeBool]

theorem resultCount_cons (e : Event) (es : List Event) :
    resultCount (e :: es)
      = resultCount es
        + (if (match e with
               | .result _ => true
               | .progress _ _ => false) then 1 else 0) := by
  simp [resultCount, List.countP_cons]

theorem nuitkaStderrEvents_wf (ls : List String) :
    ∀ p, p ≤ 90 →
      progressLeBool 90 (nuitkaStderrEvents p ls) = true
        ∧ resultCount (nuitkaStderrEvents p ls) = 0 := by
  induction ls with
  | nil => intro p _; simp [nuitkaStderrEvents, progressLeBool, resultCount]
  | cons l ls ih =>
    intro p hp
    simp only [nuitkaStderrEvents, nuitkaLineStage]
    split
    · have h2 : min (p + 2) 90 ≤ 90 := Nat.min_le_right _ _
      have h := ih _ h2
      refine ⟨?_, ?_⟩
      · rw [progressLeBool_cons, h.1]; simp [h2]
      · rw [resultCount_cons, h.2]; simp
    · split
      · have h := ih p hp
        refine ⟨?_, ?_⟩
        · rw [progressLeBool_cons, h.1]; simp [hp]
        · rw [resultCount_cons, h.2]; simp
      · split
        · have h := ih p hp
          refine ⟨?_, ?_⟩
          · rw [progressLeBool_cons, h.1]; simp [hp]
          · rw [resultCount_cons, h.2]; simp
        · have h1 : min (p + 1) 90 ≤ 90 := Nat.min_le_right _ _
          have h := ih _ h1
          refine ⟨?_, ?_⟩
          · rw [progressLeBool_cons, h.1]; simp [h1]
          · rw [resultCount_cons, h.2]; simp

theorem build_frontend_project_events_wf (io : JobEnv) (path : String) :
    progressLeBool 100 (build_frontend_project io path).1 = true
      ∧ resultCount (build_frontend_project io path).1 = 0 := by
  unfold build_frontend_project
  split
  · decide
  · split
    · simp [progressLeBool, resultCount]
    · split
      · split <;> simp [progressLeBool, resultCount]
      · simp [progressLeBool, resultCount]

theorem successEvents_wf (req : StartCompileRequest) (io : JobEnv)
    (fd : Option String) :
    progressLeBool 100 (successEvents req io fd) = true
      ∧ resultCount (successEvents req io fd) = 1 := by
  unfold successEvents
  cases fd <;> (repeat' split) <;> simp [progressLeBool, resultCount]

theorem stWait_wf (req : StartCompileRequest) (io : JobEnv) (renv : RestoreEnv)
    (fs : EntryFs) (fd : Option String) :
    progressLeBool 100 (stWait req io renv fs fd).events = true
      ∧ resultCount (stWait req io renv fs fd).events = 1 := by
  unfold stWait
  split
  · exact successEvents_wf req io fd
  · simp [progressLeBool, resultCount]
  · simp [progressLeBool, resultCount]

theorem stSpawnLoopWait_wf (req : StartCompileRequest) (io : JobEnv) (renv : RestoreEnv)
    (fs : EntryFs) (fd : Option String) :
    progressLeBool 100 (stSpawnLoopWait req io renv fs fd).events = true
      ∧ resultCount (stSpawnLoopWait req io renv fs fd).events = 1 := by
  unfold stSpawnLoopWait
  split
  · simp [progressLeBool, resultCount]
  · have hl := nuitkaStderrEvents_wf io.stderrLines 10 (by omega)
    have hw := stWait_wf req io renv fs fd
    constructor
    · simp only [progressLeBool_append]
      rw [progressLeBool_mono (by omega) hl.1, hw.1]
      rfl
    · simp only [resultCount_append]
      rw [hl.2, hw.2]

theorem argsEvents_wf (req : StartCompileRequest) (io : JobEnv) (fd : Option String) :
    progressLeBool 100 (argsEvents req io fd) = true
      ∧ resultCount (argsEvents req io fd) = 0 := by
  unfold argsEvents
  (repeat' split) <;> simp [progressLeBool, resultCount]

theorem stArgs_wf (req : StartCompileRequest) (io : JobEnv) (renv : RestoreEnv)
    (fs : EntryFs) (fd : Option String) :
    progressLeBool 100 (stArgs req io renv fs fd).events = true
      ∧ resultCount (stArgs req io renv fs fd).events = 1 := by
  unfold stArgs
  have ha := argsEvents_wf req io fd
  have hs := stSpawnLoopWait_wf req io renv fs fd
  constructor
  · simp only [progressLeBool_append]
    rw [ha.1, hs.1]
    rfl
  · simp only [resultCount_append]
    rw [ha.2, hs.2]

theorem stFrontend_wf (req : StartCompileRequest) (io : JobEnv) (renv : RestoreEnv)
    (fs : EntryFs) :
    progressLeBool 100 (stFrontend req io renv fs).events = true
      ∧ resultCount (stFrontend req io renv fs).events = 1 := by
  unfold stFrontend
  split
  · split
    · split
      · split
        · rename_i fdir hfdir hfe x evs dist heq
          have hb := build_frontend_project_events_wf io (req.project_path ++ ("/") ++ fdir)
          rw [heq] at hb
          have hb1 : progressLeBool 100 evs = true := by simpa using hb.1
          have hb2 : resultCount evs = 0 := by simpa using hb.2
          have hn := stArgs_wf req io renv fs (some dist)
          constructor
          · simp only [progressLeBool_append]
            rw [hb1, hn.1]
            rfl
          · simp only [resultCount_append]
            rw [hb2, hn.2]
        · rename_i fdir hfdir hfe x evs e heq
          have hb := build_frontend_project_events_wf io (req.project_path ++ ("/") ++ fdir)
          rw [heq] at hb
          have hb1 : progressLeBool 100 evs = true := by simpa using hb.1
          have hb2 : resultCount evs = 0 := by simpa using hb.2
          constructor
          · simp only [progressLeBool_append]
            rw [hb1]
            rfl
          · simp only [resultCount_append]
            rw [hb2]
            decide
      · exact stArgs_wf req io renv fs none
    · split
      · split
        · rename_i fpath hdet x evs dist heq
          have hb := build_frontend_project_events_wf io fpath
          rw [heq] at hb
          have hb1 : progressLeBool 100 evs = true := by simpa using hb.1
          have hb2 : resultCount evs = 0 := by simpa using hb.2
          have hn := stArgs_wf req io renv fs (some dist)
          constructor
          · simp only [progressLeBool_append]
            rw [hb1, hn.1]
            rfl
          · simp only [resultCount_append]
            rw [hb2, hn.2]
        · rename_i fpath hdet x evs e heq
          have hb := build_frontend_project_events_wf io fpath
          rw [heq] at hb
          have hb1 : progressLeBool 100 evs = true := by simpa using hb.1
          have hb2 : resultCount evs = 0 := by simpa using hb.2
          have hn := stArgs_wf req io renv fs none
          constructor
          · simp only [progressLeBool_append]
            rw [hb1, hn.1]
            rfl
          · simp only [resultCount_append]
            rw [hb2, hn.2]
            decide
      · exact stArgs_wf req io renv fs none
  · exact stArgs_wf req io renv fs none

theorem stBundle_wf (req : StartCompileRequest) (io : JobEnv) (renv : RestoreEnv)
    (fs : EntryFs) :
    progressLeBool 100 (stBundle req io renv fs).events = true
      ∧ resultCount (stBundle req io renv fs).events = 1 := by
  unfold stBundle
  split
  · split
    · rename_i fs1 u heq
      have hn := stFrontend_wf req io renv fs1
      constructor
      · simp only [progressLeBool_append]
        rw [hn.1]
        rfl
      · simp only [resultCount_append]
        rw [hn.2]
        rfl
    · simp [progressLeBool, resultCount]
  · exact stFrontend_wf req io renv fs

theorem stEnv_wf (req : StartCompileRequest) (io : JobEnv) (renv : RestoreEnv)
    (fs : EntryFs) :
    progressLeBool 100 (stEnv req io renv fs).events = true
      ∧ resultCount (stEnv req io renv fs).events = 1 := by
  unfold stEnv
  split
  · split
    · split
      · rename_i fs1 u heq
        have hn := stBundle_wf req io renv fs1
        constructor
        · simp only [progressLeBool_append]
          rw [hn.1]
          rfl
        · simp only [resultCount_append]
          rw [hn.2]
          rfl
      · simp [progressLeBool, resultCount]
    · exact stBundle_wf req io renv fs
  · exact stBundle_wf req io renv fs

theorem stInstall_wf (req : StartCompileRequest) (io : JobEnv) (renv : RestoreEnv)
    (fs : EntryFs) :
    progressLeBool 100 (stInstall req io renv fs).events = true
      ∧ resultCount (stInstall req io renv fs).events = 1 := by
  unfold stInstall
  split
  · split
    · have hn := stEnv_wf req io renv fs
      constructor
      · simp only [progressLeBool_append]
        rw [hn.1]
        rfl
      · simp only [resultCount_append]
        rw [hn.2]
        rfl
    · simp [progressLeBool, resultCount]
  · exact stEnv_wf req io renv fs

theorem stInject_wf (req : StartCompileRequest) (io : JobEnv) (renv : RestoreEnv)
    (fs : EntryFs) :
    progressLeBool 100 (stInject req io renv fs).events = true
      ∧ resultCount (stInject req io renv fs).events = 1 := by
  unfold stInject
  split
  · split
    · rename_i fs1 u heq
      have hn := stInstall_wf req io renv fs1
      constructor
      · simp only [progressLeBool_append]
        rw [hn.1]
        rfl
      · simp only [resultCount_append]
        rw [hn.2]
        rfl
    · simp [progressLeBool, resultCount]
  · exact stInstall_wf req io renv fs

/-- C2 (amended): for every request, environment and initial file state,
every progress value `run_nuitka_compilation` delivers lies in `[0,100]`
(values are `Nat`, so `0 ≤ p` is inherent) and exactly one terminal
result event is emitted. (The original claim's monotonicity part is
refuted separately.) -/
theorem progress_bounded_and_single_terminal_event
    (req : StartCompileRequest) (io : JobEnv) (renv : RestoreEnv) (fs : EntryFs) :
    progressLeBool 100 (run_nuitka_compilation req io renv fs).events = true
      ∧ resultCount (run_nuitka_compilation req io renv fs).events = 1 := by
  unfold run_nuitka_compilation
  split
  · simp [progressLeBool, resultCount]
  · split
    · simp [progressLeBool, resultCount]
    · have hn := stInject_wf req io renv fs
      constructor
      · simp only [progressLeBool_append]
        rw [hn.1]
        rfl
      · simp only [resultCount_append]
        rw [hn.2]
        rfl

theorem stWait_renv (req : StartCompileRequest) (io : JobEnv) (fs : EntryFs)
    (fd : Option String) (r1 r2 : RestoreEnv) :
    (stWait req io r1 fs fd).events = (stWait req io r2 fs fd).events
      ∧ (stWait req io r1 fs fd).ret = (stWait req io r2 fs fd).ret := by
  unfold stWait
  split <;> exact ⟨rfl, rfl⟩

theorem stSpawnLoopWait_renv (req : StartCompileRequest) (io : JobEnv) (fs : EntryFs)
    (fd : Option String) (r1 r2 : RestoreEnv) :
    (stSpawnLoopWait req io r1 fs fd).events = (stSpawnLoopWait req io r2 fs fd).events
      ∧ (stSpawnLoopWait req io r1 fs fd).ret = (stSpawnLoopWait req io r2 fs fd).ret := by
  unfold stSpawnLoopWait
  split
  · exact ⟨rfl, rfl⟩
  · have h := stWait_renv req io fs fd r1 r2
    constructor
    · dsimp only
      rw [h.1]
    · dsimp only
      exact h.2

theorem stArgs_renv (req : StartCompileRequest) (io : JobEnv) (fs : EntryFs)
    (fd : Option String) (r1 r2 : RestoreEnv) :
    (stArgs req io r1 fs fd).events = (stArgs req io r2 fs fd).events
      ∧ (stArgs req io r1 fs fd).ret = (stArgs req io r2 fs fd).ret := by
  unfold stArgs
  have h := stSpawnLoopWait_renv req io fs fd r1 r2
  constructor
  · dsimp only
    rw [h.1]
  · dsimp only
    exact h.2

theorem stFrontend_renv (req : StartCompileRequest) (io : JobEnv) (fs : EntryFs)
    (r1 r2 : RestoreEnv) :
    (stFrontend req io r1 fs).events = (stFrontend req io r2 fs).events
      ∧ (stFrontend req io r1 fs).ret = (stFrontend req io r2 fs).ret := by
  unfold stFrontend
  split
  · split
    · split
      · split
        · rename_i fdir hfdir hfe x evs dist heq
          have h := stArgs_renv req io fs (some dist) r1 r2
          exact ⟨by dsimp only; rw [h.1], by dsimp only; exact h.2⟩
        · exact ⟨rfl, rfl⟩
      · exact stArgs_renv req io fs none r1 r2
    · split
      · split
        · rename_i fpath hdet x evs dist heq
          have h := stArgs_renv req io fs (some dist) r1 r2
          exact ⟨by dsimp only; rw [h.1], by dsimp only; exact h.2⟩
        · have h := stArgs_renv req io fs none r1 r2
          exact ⟨by dsimp only; rw [h.1], by dsimp only; exact h.2⟩
      · exact stArgs_renv req io fs none r1 r2
  · exact stArgs_renv req io fs none r1 r2

theorem stBundle_renv (req : StartCompileRequest) (io : JobEnv) (fs : EntryFs)
    (r1 r2 : RestoreEnv) :
    (stBundle req io r1 fs).events = (stBundle req io r2 fs).events
      ∧ (stBundle req io r1 fs).ret = (stBundle req io r2 fs).ret := by
  unfold stBundle
  split
  · split
    · rename_i fs1 u heq
      have h := stFrontend_renv req io fs1 r1 r2
      exact ⟨by dsimp only; rw [h.1], by dsimp only; exact h.2⟩
    · exact ⟨rfl, rfl⟩
  · exact stFrontend_renv req io fs r1 r2

theorem stEnv_renv (req : StartCompileRequest) (io : JobEnv) (fs : EntryFs)
    (r1 r2 : RestoreEnv) :
    (stEnv req io r1 fs).events = (stEnv req io r2 fs).events
      ∧ (stEnv req io r1 fs).ret = (stEnv req io r2 fs).ret := by
  unfold stEnv
  split
  · split
    · split
      · rename_i fs1 u heq
        have h := stBundle_renv req io fs1 r1 r2
        exact ⟨by dsimp only; rw [h.1], by dsimp only; exact h.2⟩
      · exact ⟨rfl, rfl⟩
    · exact stBundle_renv req io fs r1 r2
  · exact stBundle_renv req io fs r1 r2

theorem stInstall_renv (req : StartCompileRequest) (io : JobEnv) (fs : EntryFs)
    (r1 r2 : RestoreEnv) :
    (stInstall req io r1 fs).events = (stInstall req io r2 fs).events
      ∧ (stInstall req io r1 fs).ret = (stInstall req io r2 fs).ret := by
  unfold stInstall
  split
  · split
    · have h := stEnv_renv req io fs r1 r2
      exact ⟨by dsimp only; rw [h.1], by dsimp only; exact h.2⟩
    · exact ⟨rfl, rfl⟩
  · exact stEnv_renv req io fs r1 r2

theorem stInject_renv (req : StartCompileRequest) (io : JobEnv) (fs : EntryFs)
    (r1 r2 : RestoreEnv) :
    (stInject req io r1 fs).events = (stInject req io r2 fs).events
      ∧ (stInject req io r1 fs).ret = (stInject req io r2 fs).ret := by
  unfold stInject
  split
  · split
    · rename_i fs1 u heq
      have h := stInstall_renv req io fs1 r1 r2
      exact ⟨by dsimp only; rw [h.1], by dsimp only; exact h.2⟩
    · exact ⟨rfl, rfl⟩
  · exact stInstall_renv req io fs r1 r2

/-- C10: `restore_original_file` is total (it returns `EntryFs`, not a
`Result`; its two I/O failures are swallowed as warnings), and a job's
event stream and terminal return value are identical under any two
restore I/O oracles: a failed restore never changes the job's terminal
result. -/
theorem restore_failures_do_not_affect_result
    (req : StartCompileRequest) (io : JobEnv) (fs : EntryFs) (r1 r2 : RestoreEnv) :
    (run_nuitka_compilation req io r1 fs).events
        = (run_nuitka_compilation req io r2 fs).events
      ∧ (run_nuitka_compilation req io r1 fs).ret
        = (run_nuitka_compilation req io r2 fs).ret := by
  unfold run_nuitka_compilation
  split
  · exact ⟨rfl, rfl⟩
  · split
    · exact ⟨rfl, rfl⟩
    · have h := stInject_renv req io fs r1 r2
      exact ⟨by dsimp only; rw [h.1], by dsimp only; exact h.2⟩

/-- C1 (code bug): a `pip install` failure occurring after license
injection has succeeded (`install_requirements = true`, requirements
file present, pip failing) delivers the terminal failure WITHOUT
restoring the entry file: compiler.rs:1020-1028 returns early without
calling `restore_original_file`, unlike the parallel error paths at
compiler.rs:1044, 1069 and 1093. The entry file is left instrumented on
disk, not byte-identical to its pre-job content, with the backup left
dangling. -/
theorem install_requirements_failure_skips_restore :
    (run_nuitka_compilation pipFailRequest pipFailEnv {} entryFsOriginal).ret
        = .error ("pip install failed")
      ∧ (run_nuitka_compilation pipFailRequest pipFailEnv {} entryFsOriginal).fs.entryContent
          ≠ some ("print(1)\n")
      ∧ (run_nuitka_compilation pipFailRequest pipFailEnv {} entryFsOriginal).fs.backupContent
          = some ("print(1)\n") := by
  decide

/-- C2 counterexample: a job with one included package emits progress 6
("Including 1 Python packages", compiler.rs:1175) during preparation and
then the unconditional progress 5 ("Running Nuitka", compiler.rs:1276)
at compile start, so the delivered progress sequence 0,3,6,5,100 is not
non-decreasing. -/
theorem progress_not_monotonic_counterexample :
    progressValues (run_nuitka_compilation pkgRequest {} {} entryFsOriginal).events
        = [0, 3, 6, 5, 100]
      ∧ nondecreasing
          (progressValues (run_nuitka_compilation pkgRequest {} {} entryFsOriginal).events)
          = false := by
  decide

/-- C3 counterexample: path flattening collides: the two distinct nested
entry paths `src/main_js.py` and `src/main/js.py` yield the same backup
filename `_backup_src_main_js.py`. -/
theorem backup_filename_collision_counterexample :
    injectBackupFilename ("src/main_js.py") = injectBackupFilename ("src/main/js.py")
      ∧ ("src/main_js.py") ≠ (("src/main/js.py") : String)
      ∧ containsSub ("src/main_js.py") ("/") = true
      ∧ containsSub ("src/main/js.py") ("/") = true := by
  decide

/-- C3 (amended): the backup filename is a deterministic path-flattened
function of the entry-file path, and restore computes exactly the same
backup filename as injection for every entry-file path; the flattening
is however not injective on nested paths. -/
theorem backup_filename_deterministic_and_restore_matches_inject (entry_file : String) :
    restoreBackupFilename entry_file = injectBackupFilename entry_file := rfl

/-- C4 counterexample: scanning an absent project path returns
`Err("Project path does not exist: ...")` (compiler.rs:1538-1540), not
an empty plan. -/
theorem scan_absent_path_errors_counterexample :
    scan_project_structure none ("C:/missing")
        = .error (("Project path does not exist: ") ++ ("C:/missing"))
      ∧ (scan_project_structure none ("C:/missing")).isOk = false :=
  ⟨rfl, rfl⟩

/-- C4 (amended): `scan_project_structure` fails exactly on an absent
project path; for every existing path it always returns a scanned
`ProjectStructure` and never an error. -/
theorem scan_existing_path_never_fails :
    (∀ (L : ProjectListing) (p : String),
        ∃ ps, scan_project_structure (some L) p = .ok ps)
      ∧ (∀ p : String,
          scan_project_structure none p
            = .error (("Project path does not exist: ") ++ p)) :=
  ⟨fun _ _ => ⟨_, rfl⟩, fun _ => rfl⟩

/-- C5 counterexample: in the bundled-runtime (Node.js) variant an empty
license key is NOT bypassed: the generated `validateLicense` compares
only against the literal `'DEMO'` (compiler.rs:2068), so with key `""`
it attempts the HTTP request, and on a connection error the process
exits instead of succeeding. -/
theorem node_empty_key_not_bypassed_counterexample :
    (validateLicense ("") true (.connError ("connection refused"))).networkCalled = true
      ∧ (validateLicense ("") true (.connError ("connection refused"))).outcome
          = .exit (("[CodeVault] Connection error: ") ++ ("connection refused")) := by
  decide

/-- C5 (amended): the native-compiled (Python) variant always succeeds
without any network call when the key literal is `"DEMO"` or empty, for
every server URL, cache state and network behaviour; the bundled-runtime
(Node.js) variant does so only for the literal `"DEMO"`. -/
theorem demo_bypass_no_network :
    (∀ (key url hwid : String) (net : LwNet) (cache : Option LwCache) (now : Int),
        key = ("DEMO") ∨ key = ("") →
        lw_validate key url hwid net cache now
          = { outcome := .proceed, cache := cache, networkCalled := false })
      ∧ (∀ (urlValid : Bool) (net : NodeNet),
          validateLicense ("DEMO") urlValid net
            = { outcome := .proceed, networkCalled := false }) := by
  constructor
  · rintro key url hwid net cache now (rfl | rfl) <;> rfl
  · intro urlValid net
    rfl

/-- Witness for the C5 amended theorem at concrete inputs. -/
theorem demo_bypass_no_network_witness :
    lw_validate ("DEMO") ("http://localhost:8000") ("hw") (.unreachable ("down")) none 0
        = { outcome := .proceed, cache := none, networkCalled := false }
      ∧ lw_validate ("") ("http://localhost:8000") ("hw") (.unreachable ("down")) none 0
        = { outcome := .proceed, cache := none, networkCalled := false }
      ∧ validateLicense ("DEMO") true (.connError ("down"))
        = { outcome := .proceed, networkCalled := false } :=
  ⟨demo_bypass_no_network.1 _ _ _ _ _ _ (Or.inl rfl),
   demo_bypass_no_network.1 _ _ _ _ _ _ (Or.inr rfl),
   demo_bypass_no_network.2 _ _⟩

theorem lw_check_grace_period_iff (cache : Option LwCache) (now : Int) :
    lw_check_grace_period cache now = true
      ↔ ∃ c, cache = some c ∧ c.valid = true ∧ now - c.last_validated < 24 * 60 * 60 := by
  cases cache with
  | none => simp [lw_check_grace_period]
  | some c =>
    by_cases hv : c.valid = true
    · simp [lw_check_grace_period, hv, LW_GRACE_PERIOD]
    · simp [lw_check_grace_period, hv]

/-- C6: in the native-compiled embedded protocol, with a non-bypass key
and an unreachable server, validation proceeds iff the grace check
passes; the grace check passes iff a cached record exists that is marked
valid with age strictly under 24 hours; otherwise the process exits with
the reconnect message; and the network was attempted. -/
theorem offline_grace_iff_valid_fresh_cache
    (key url hwid reason : String) (cache : Option LwCache) (now : Int)
    (hk : key ≠ ("DEMO")) (hk2 : key ≠ ("")) :
    ((lw_validate key url hwid (.unreachable reason) cache now).outcome = .proceed
      ↔ lw_check_grace_period cache now = true)
    ∧ (lw_check_grace_period cache now = true
      ↔ ∃ c, cache = some c ∧ c.valid = true ∧ now - c.last_validated < 24 * 60 * 60)
    ∧ (lw_check_grace_period cache now = false →
        (lw_validate key url hwid (.unreachable reason) cache now).outcome
          = .exit ("[ERROR] Cannot verify license. Please ensure the license server is reachable."))
    ∧ (lw_validate key url hwid (.unreachable reason) cache now).networkCalled = true := by
  have hb1 : (key == ("DEMO")) = false := by simp [hk]
  have hb2 : (key == ("")) = false := by simp [hk2]
  refine ⟨?_, lw_check_grace_period_iff cache now, ?_, ?_⟩
  · cases hg : lw_check_grace_period cache now <;> simp [lw_validate, hb1, hb2, hg]
  · intro hg
    simp [lw_validate, hb1, hb2, hg]
  · cases hg : lw_check_grace_period cache now <;> simp [lw_validate, hb1, hb2, hg]

/-- Witness for C6 at the claim's example ages: a valid cached record of
age 23 hours passes the grace path, one of age 25 hours terminates with
the reconnect message. -/
theorem offline_grace_iff_valid_fresh_cache_witness :
    (lw_validate ("PRO-1") ("http://localhost:8000") ("hw") (.unreachable ("timeout"))
        (some cacheFresh) (23 * 3600)).outcome = .proceed
      ∧ (lw_validate ("PRO-1") ("http://localhost:8000") ("hw") (.unreachable ("timeout"))
          (some cacheFresh) (25 * 3600)).outcome
          = .exit ("[ERROR] Cannot verify license. Please ensure the license server is reachable.") :=
  ⟨(offline_grace_iff_valid_fresh_cache ("PRO-1") ("http://localhost:8000") ("hw")
      ("timeout") (some cacheFresh) (23 * 3600) (by decide) (by decide)).1.mpr (by decide),
   (offline_grace_iff_valid_fresh_cache ("PRO-1") ("http://localhost:8000") ("hw")
      ("timeout") (some cacheFresh) (25 * 3600) (by decide) (by decide)).2.2.1 (by decide)⟩

/-- C7: in the native-compiled embedded protocol, a server response with
any status other than "valid" terminates the process displaying the
server-provided message and rewrites the cache to an invalid record,
regardless of the previous cache state (so also when a valid in-grace
cache exists). -/
theorem invalid_status_overrides_grace
    (key url hwid status : String) (message : Option String)
    (cache : Option LwCache) (now : Int)
    (hk : key ≠ ("DEMO")) (hk2 : key ≠ ("")) (hs : status ≠ ("valid")) :
    lw_validate key url hwid (.response status message) cache now
      = { outcome := .exit (("[ERROR] License error: ") ++ message.getD ("License invalid"))
          cache := some { license_key := key, last_validated := now,
                          valid := false, hwid := hwid }
          networkCalled := true } := by
  have hb1 : (key == ("DEMO")) = false := by simp [hk]
  have hb2 : (key == ("")) = false := by simp [hk2]
  have hs1 : (status == ("valid")) = false := by simp [hs]
  simp [lw_validate, hb1, hb2, hs1]

/-- Witness for C7: a "revoked" response while a valid cached record
well inside the grace window exists (age one hour). -/
theorem invalid_status_overrides_grace_witness :
    lw_validate ("PRO-1") ("http://localhost:8000") ("hw")
        (.response ("revoked") (some ("License revoked"))) (some cacheFresh) 3600
      = { outcome := .exit (("[ERROR] License error: ") ++ ("License revoked"))
          cache := some { license_key := ("PRO-1"), last_validated := 3600,
                          valid := false, hwid := ("hw") }
          networkCalled := true } := by
  have h := invalid_status_overrides_grace ("PRO-1") ("http://localhost:8000") ("hw")
    ("revoked") (some ("License revoked")) (some cacheFresh) 3600
    (by decide) (by decide) (by decide)
  simpa using h

/-- C8 counterexample: at an elapsed time exactly equal to the
configured duration (check at T+60 minutes for a 60-minute demo) the
elapsed time does not exceed the duration, yet the generated code
terminates with the trial-expired message (`remaining <= 0`,
compiler.rs:861). -/
theorem demo_exact_boundary_counterexample :
    (lw_check_demo 60 (some 0) 3600).outcome
        = .exit ("[DEMO EXPIRED] Your trial period has ended.")
      ∧ ¬((3600 : Int) - 0 > (60 : Int) * 60) := by
  decide

/-- C8 (amended): with a persisted start mark `s`, the demo check
terminates with the trial-expired message iff the elapsed time has
reached or exceeded the configured duration; strictly before that it
proceeds printing the remaining whole minutes; the mark is kept, no
network is touched, and the first run behaves like a run whose mark was
just persisted at the current time. -/
theorem demo_expiry_iff_elapsed_reaches_duration (dur : Nat) (s now : Int) :
    ((lw_check_demo dur (some s) now).outcome
        = .exit ("[DEMO EXPIRED] Your trial period has ended.")
      ↔ (dur : Int) * 60 ≤ now - s)
    ∧ (now - s < (dur : Int) * 60 →
        (lw_check_demo dur (some s) now).outcome
          = .proceed (((dur : Int) * 60 - (now - s)) / 60))
    ∧ (lw_check_demo dur (some s) now).marker = s
    ∧ (lw_check_demo dur (some s) now).networkCalled = false
    ∧ lw_check_demo dur none now = lw_check_demo dur (some now) now := by
  refine ⟨?_, ?_, ?_, ?_, rfl⟩
  · by_cases h : ((dur : Int) * 60 - (now - s) ≤ 0)
    · simp only [lw_check_demo, if_pos h]
      constructor
      · intro _
        omega
      · intro _
        trivial
    · simp only [lw_check_demo, if_neg h]
      constructor
      · intro hc
        exact absurd hc (by simp)
      · intro hc
        omega
  · intro hlt
    have h : ¬((dur : Int) * 60 - (now - s) ≤ 0) := by omega
    simp only [lw_check_demo, if_neg h]
  · by_cases h : ((dur : Int) * 60 - (now - s) ≤ 0) <;>
      simp only [lw_check_demo, if_pos, if_neg, h, ite_true, ite_false]
  · by_cases h : ((dur : Int) * 60 - (now - s) ≤ 0) <;>
      simp only [lw_check_demo, if_pos, if_neg, h, ite_true, ite_false]

/-- Witness for C8 at the claim's example times: duration 60 minutes,
start mark 0, check at T+59 minutes proceeds with 1 minute remaining,
check at T+61 minutes terminates. -/
theorem demo_expiry_iff_elapsed_reaches_duration_witness :
    (lw_check_demo 60 (some 0) 3540).outcome = .proceed 1
      ∧ (lw_check_demo 60 (some 0) 3660).outcome
          = .exit ("[DEMO EXPIRED] Your trial period has ended.") := by
  constructor
  · have h := (demo_expiry_iff_elapsed_reaches_duration 60 0 3540).2.1 (by decide)
    rw [h]
    decide
  · exact (demo_expiry_iff_elapsed_reaches_duration 60 0 3660).1.mpr (by decide)

theorem mem_rustTrim_data {ch : Char} {s : String} (h : ch ∈ (rustTrim s).data) :
    ch ∈ s.data := by
  simp only [rustTrim] at h
  rw [List.mem_reverse] at h
  have h2 := (List.dropWhile_sublist _).subset h
  rw [List.mem_reverse] at h2
  exact (List.dropWhile_sublist _).subset h2

/-- C9: dependency-manifest parsing maps the example input to exactly
`["flask", "requests"]`, and in general every produced package name is
non-empty and free of version-specifier delimiters (it is the trimmed
prefix of its line truncated at the first delimiter). -/
theorem parse_requirements_truncates_at_delimiter :
    parse_requirements_file (some ("flask==2.0\n# comment\nrequests>=2\n\n"))
        = [("flask"), ("requests")]
      ∧ (∀ (content : Option String) (name : String),
          name ∈ parse_requirements_file content →
          rustIsEmpty name = false
            ∧ ∀ ch ∈ name.data, reqDelims.contains ch = false) := by
  constructor
  · decide
  · rintro content name hname
    cases content with
    | none => simp [parse_requirements_file] at hname
    | some c =>
      simp only [parse_requirements_file, List.mem_filter, List.mem_map] at hname
      obtain ⟨⟨line, hline, rfl⟩, hne⟩ := hname
      refine ⟨by simpa using hne, ?_⟩
      intro ch hch
      have hsub : ch ∈ line.data.takeWhile (fun c => !reqDelims.contains c) :=
        mem_rustTrim_data hch
      have := List.mem_takeWhile_imp hsub
      simpa using this

/-- Witness for the general part of C9 at the name "flask" produced from
the example manifest. -/
theorem parse_requirements_truncates_at_delimiter_witness :
    rustIsEmpty ("flask") = false
      ∧ ∀ ch ∈ (("flask") : String).data, reqDelims.contains ch = false :=
  (parse_requirements_truncates_at_delimiter).2
    (some ("flask==2.0\n# comment\nrequests>=2\n\n")) ("flask") (by decide)

end CodeVault
